import Mathlib

/-!
Verification of the AI-Agent-System repository (MultiAgentIntelligence).

This file embeds, in Lean, the in-memory storage layer
(`server/storage.ts`, class `MemStorage`) and the upload/processing
routes (`server/routes.ts`: the `/api/upload` handler and
`processFileWithAI`), together with the record types from the shared
Drizzle schema.  Timestamps (`Date`) are modelled as logical clock
values of type `Nat` supplied explicitly to every operation that calls
`new Date()`; `jsonb` payloads are modelled as opaque `Option String`
snapshots; JavaScript `Map<number, T>` objects are modelled as
association lists with `Map.set` semantics (replace in place when the
key is present, append otherwise); `async` control flow is sequential
in the source (every storage call is awaited), so it is embedded as
straight-line state passing, and the fire-and-forget python subprocess
is modelled by explicit parameters for whether `spawn` succeeds and
which exit code the process reports.  Fallible operations (the two
`update*` methods, which `throw` on a missing id) return an
`Except String` result paired with the resulting store.
-/

namespace AgentSystem

/-! ## Data model, from the shared Drizzle schema -/

/-- Row of the `users` table. -/
structure User where
  id : Nat
  username : String
  password : String
deriving DecidableEq, Repr

/-- Insert shape for `users` (id generated). -/
structure InsertUser where
  username : String
  password : String
deriving DecidableEq, Repr

/-- Row of the `processed_files` table. -/
structure ProcessedFile where
  id : Nat
  filename : String
  originalName : String
  fileType : String
  size : Nat
  uploadedAt : Nat
  processedAt : Option Nat
  status : String
  classificationResult : Option String
  extractedData : Option String
  businessIntent : Option String
  priority : Option String
  agentAssigned : Option String
deriving DecidableEq, Repr

/-- Insert shape for `processed_files` (id, uploadedAt, processedAt generated). -/
structure InsertProcessedFile where
  filename : String
  originalName : String
  fileType : String
  size : Nat
  status : String
  classificationResult : Option String
  extractedData : Option String
  businessIntent : Option String
  priority : Option String
  agentAssigned : Option String
deriving DecidableEq, Repr

/-- Row of the `agent_activities` table. -/
structure AgentActivity where
  id : Nat
  fileId : Option Nat
  agentName : String
  action : String
  input : Option String
  output : Option String
  status : String
  timestamp : Nat
  processingTime : Option Nat
  errorMessage : Option String
deriving DecidableEq, Repr

/-- Insert shape for `agent_activities` (id, timestamp generated). -/
structure InsertAgentActivity where
  fileId : Option Nat
  agentName : String
  action : String
  input : Option String
  output : Option String
  status : String
  processingTime : Option Nat
  errorMessage : Option String
deriving DecidableEq, Repr

/-- Row of the `triggered_actions` table. -/
structure TriggeredAction where
  id : Nat
  fileId : Option Nat
  actionType : String
  description : String
  priority : String
  status : String
  externalApiCall : Option String
  timestamp : Nat
  metadata : Option String
deriving DecidableEq, Repr

/-- Insert shape for `triggered_actions` (id, timestamp generated). -/
structure InsertTriggeredAction where
  fileId : Option Nat
  actionType : String
  description : String
  priority : String
  status : String
  externalApiCall : Option String
  metadata : Option String
deriving DecidableEq, Repr

/-- Row of the `system_metrics` table. -/
structure SystemMetric where
  id : Nat
  metricName : String
  metricValue : String
  timestamp : Nat
deriving DecidableEq, Repr

/-- Insert shape for `system_metrics` (id, timestamp generated). -/
structure InsertSystemMetric where
  metricName : String
  metricValue : String
deriving DecidableEq, Repr

/-! ## JavaScript Map model -/

/-- Lookup in a `Map<number, T>`: the value of the first entry with the
given key, as `Map.get`. -/
def mapGet {α : Type} : List (Nat × α) → Nat → Option α
  | [], _ => none
  | p :: m, k => if p.1 = k then some p.2 else mapGet m k

/-- `Map.set`: replace the entry in place when the key is present,
append a new entry at the end otherwise. -/
def mapSet {α : Type} : List (Nat × α) → Nat → α → List (Nat × α)
  | [], k, v => [(k, v)]
  | p :: m, k, v => if p.1 = k then (k, v) :: m else p :: mapSet m k v

theorem mapGet_mapSet_self {α : Type} (m : List (Nat × α)) (k : Nat) (v : α) :
    mapGet (mapSet m k v) k = some v := by
  induction m with
  | nil => simp [mapGet, mapSet]
  | cons p m ih =>
    by_cases h : p.1 = k
    · simp [mapGet, mapSet, h]
    · simpa [mapGet, mapSet, h] using ih

theorem mapGet_mapSet_ne {α : Type} (m : List (Nat × α)) (k j : Nat) (v : α)
    (hne : j ≠ k) : mapGet (mapSet m k v) j = mapGet m j := by
  have hkj : ¬ k = j := by omega
  induction m with
  | nil => simp [mapGet, mapSet, hkj]
  | cons p m ih =>
    by_cases h : p.1 = k
    · have hpj : ¬ p.1 = j := by omega
      simp [mapGet, mapSet, h, hkj, hpj]
    · rw [show mapSet (p :: m) k v = p :: mapSet m k v from by simp [mapSet, h]]
      by_cases hj : p.1 = j
      · simp [mapGet, hj]
      · simp [mapGet, hj, ih]

theorem mapSet_mapSet_self {α : Type} (m : List (Nat × α)) (k : Nat) (v w : α) :
    mapSet (mapSet m k v) k w = mapSet m k w := by
  induction m with
  | nil => simp [mapSet]
  | cons p m ih =>
    by_cases h : p.1 = k
    · simp [mapSet, h, ih]
    · simp [mapSet, h, ih]

theorem mem_mapSet {α : Type} (m : List (Nat × α)) (k : Nat) (v : α) (p : Nat × α)
    (hp : p ∈ mapSet m k v) : p = (k, v) ∨ p ∈ m := by
  induction m with
  | nil => simpa [mapSet] using hp
  | cons q m ih =>
    by_cases h : q.1 = k
    · rcases (by simpa [mapSet, h] using hp) with h1 | h1
      · exact Or.inl h1
      · exact Or.inr (List.mem_cons_of_mem _ h1)
    · rcases (by simpa [mapSet, h] using hp) with h1 | h1
      · exact Or.inr (by simp [h1])
      · rcases ih h1 with h2 | h2
        · exact Or.inl h2
        · exact Or.inr (List.mem_cons_of_mem _ h2)

theorem mapGet_mem {α : Type} (m : List (Nat × α)) (k : Nat) (v : α)
    (h : mapGet m k = some v) : (k, v) ∈ m := by
  induction m with
  | nil => simp [mapGet] at h
  | cons p m ih =>
    by_cases hp : p.1 = k
    · have hv : p.2 = v := by simpa [mapGet, hp] using h
      have : p = (k, v) := by cases p; simp_all
      simp [this]
    · have := ih (by simpa [mapGet, hp] using h)
      exact List.mem_cons_of_mem _ this

theorem mapSet_eq_append {α : Type} (m : List (Nat × α)) (k : Nat) (v : α)
    (h : ∀ p ∈ m, p.1 ≠ k) : mapSet m k v = m ++ [(k, v)] := by
  induction m with
  | nil => simp [mapSet]
  | cons p m ih =>
    have hp : p.1 ≠ k := h p (by simp)
    simp [mapSet, hp]
    exact ih (fun q hq => h q (List.mem_cons_of_mem _ hq))

/-! ## MemStorage (`server/storage.ts`) -/

/-- State of the `MemStorage` class: five `Map<number, T>` members and
the shared `currentId` counter. -/
structure MemStorage where
  users : List (Nat × User)
  processedFiles : List (Nat × ProcessedFile)
  agentActivities : List (Nat × AgentActivity)
  triggeredActions : List (Nat × TriggeredAction)
  systemMetrics : List (Nat × SystemMetric)
  currentId : Nat
deriving DecidableEq, Repr

/-- The `MemStorage` constructor: empty maps, `currentId = 1`. -/
def MemStorage.init : MemStorage :=
  { users := [], processedFiles := [], agentActivities := [],
    triggeredActions := [], systemMetrics := [], currentId := 1 }

/-- `MemStorage.createUser`. -/
def createUser (s : MemStorage) (u : InsertUser) : User × MemStorage :=
  let id := s.currentId
  let user : User := { id := id, username := u.username, password := u.password }
  (user, { s with users := mapSet s.users id user, currentId := id + 1 })

/-- `MemStorage.createProcessedFile`: spreads the insert record, assigns
`id := currentId++`, `uploadedAt := new Date()`, `processedAt := null`. -/
def createProcessedFile (s : MemStorage) (f : InsertProcessedFile) (now : Nat) :
    ProcessedFile × MemStorage :=
  let id := s.currentId
  let pf : ProcessedFile :=
    { id := id, filename := f.filename, originalName := f.originalName,
      fileType := f.fileType, size := f.size, uploadedAt := now,
      processedAt := none, status := f.status,
      classificationResult := f.classificationResult,
      extractedData := f.extractedData, businessIntent := f.businessIntent,
      priority := f.priority, agentAssigned := f.agentAssigned }
  (pf, { s with processedFiles := mapSet s.processedFiles id pf, currentId := id + 1 })

/-- A `Partial<ProcessedFile>` value: each field optionally supplied. -/
structure ProcessedFileUpdates where
  id : Option Nat := none
  filename : Option String := none
  originalName : Option String := none
  fileType : Option String := none
  size : Option Nat := none
  uploadedAt : Option Nat := none
  processedAt : Option (Option Nat) := none
  status : Option String := none
  classificationResult : Option (Option String) := none
  extractedData : Option (Option String) := none
  businessIntent : Option (Option String) := none
  priority : Option (Option String) := none
  agentAssigned : Option (Option String) := none
deriving DecidableEq, Repr

/-- The object spread `{ ...existing, ...updates }` for processed files:
a supplied field overrides, an absent field keeps the existing value. -/
def applyFileUpdates (e : ProcessedFile) (u : ProcessedFileUpdates) : ProcessedFile :=
  { id := u.id.getD e.id, filename := u.filename.getD e.filename,
    originalName := u.originalName.getD e.originalName,
    fileType := u.fileType.getD e.fileType, size := u.size.getD e.size,
    uploadedAt := u.uploadedAt.getD e.uploadedAt,
    processedAt := u.processedAt.getD e.processedAt,
    status := u.status.getD e.status,
    classificationResult := u.classificationResult.getD e.classificationResult,
    extractedData := u.extractedData.getD e.extractedData,
    businessIntent := u.businessIntent.getD e.businessIntent,
    priority := u.priority.getD e.priority,
    agentAssigned := u.agentAssigned.getD e.agentAssigned }

/-- `MemStorage.updateProcessedFile`: throws when the id is absent
(returned as `Except.error`, paired with the unchanged store), otherwise
stores and returns the spread-updated record. -/
def updateProcessedFile (s : MemStorage) (id : Nat) (u : ProcessedFileUpdates) :
    Except String ProcessedFile × MemStorage :=
  match mapGet s.processedFiles id with
  | none => (Except.error ("ProcessedFile with id " ++ toString id ++ " not found"), s)
  | some existing =>
    let updated := applyFileUpdates existing u
    (Except.ok updated, { s with processedFiles := mapSet s.processedFiles id updated })

/-- `MemStorage.getProcessedFile`. -/
def getProcessedFile (s : MemStorage) (id : Nat) : Option ProcessedFile :=
  mapGet s.processedFiles id

/-- `MemStorage.getProcessedFilesByStatus`: filter of the map's values. -/
def getProcessedFilesByStatus (s : MemStorage) (status : String) : List ProcessedFile :=
  (s.processedFiles.map Prod.snd).filter (fun f => f.status == status)

/-- `MemStorage.createAgentActivity`: spreads the insert record, assigns
`id := currentId++` and `timestamp := new Date()`. -/
def createAgentActivity (s : MemStorage) (a : InsertAgentActivity) (now : Nat) :
    AgentActivity × MemStorage :=
  let id := s.currentId
  let act : AgentActivity :=
    { id := id, fileId := a.fileId, agentName := a.agentName, action := a.action,
      input := a.input, output := a.output, status := a.status, timestamp := now,
      processingTime := a.processingTime, errorMessage := a.errorMessage }
  (act, { s with agentActivities := mapSet s.agentActivities id act, currentId := id + 1 })

/-- Values of the activity map that reference the given file id — the
filter step of `MemStorage.getAgentActivities(fileId)` (the source then
sorts by timestamp and truncates, which does not change membership). -/
def activitiesForFile (s : MemStorage) (fid : Nat) : List AgentActivity :=
  (s.agentActivities.map Prod.snd).filter (fun a => a.fileId == some fid)

/-- `MemStorage.getAgentActivitiesByAgent`. -/
def getAgentActivitiesByAgent (s : MemStorage) (agentName : String) : List AgentActivity :=
  (s.agentActivities.map Prod.snd).filter (fun a => a.agentName == agentName)

/-- `MemStorage.createTriggeredAction`. -/
def createTriggeredAction (s : MemStorage) (a : InsertTriggeredAction) (now : Nat) :
    TriggeredAction × MemStorage :=
  let id := s.currentId
  let act : TriggeredAction :=
    { id := id, fileId := a.fileId, actionType := a.actionType,
      description := a.description, priority := a.priority, status := a.status,
      externalApiCall := a.externalApiCall, timestamp := now, metadata := a.metadata }
  (act, { s with triggeredActions := mapSet s.triggeredActions id act, currentId := id + 1 })

/-- A `Partial<TriggeredAction>` value. -/
structure TriggeredActionUpdates where
  id : Option Nat := none
  fileId : Option (Option Nat) := none
  actionType : Option String := none
  description : Option String := none
  priority : Option String := none
  status : Option String := none
  externalApiCall : Option (Option String) := none
  timestamp : Option Nat := none
  metadata : Option (Option String) := none
deriving DecidableEq, Repr

/-- The object spread `{ ...existing, ...updates }` for triggered actions. -/
def applyActionUpdates (e : TriggeredAction) (u : TriggeredActionUpdates) : TriggeredAction :=
  { id := u.id.getD e.id, fileId := u.fileId.getD e.fileId,
    actionType := u.actionType.getD e.actionType,
    description := u.description.getD e.description,
    priority := u.priority.getD e.priority, status := u.status.getD e.status,
    externalApiCall := u.externalApiCall.getD e.externalApiCall,
    timestamp := u.timestamp.getD e.timestamp,
    metadata := u.metadata.getD e.metadata }

/-- `MemStorage.updateTriggeredAction`: throws when the id is absent. -/
def updateTriggeredAction (s : MemStorage) (id : Nat) (u : TriggeredActionUpdates) :
    Except String TriggeredAction × MemStorage :=
  match mapGet s.triggeredActions id with
  | none => (Except.error ("TriggeredAction with id " ++ toString id ++ " not found"), s)
  | some existing =>
    let updated := applyActionUpdates existing u
    (Except.ok updated, { s with triggeredActions := mapSet s.triggeredActions id updated })

/-- `MemStorage.createSystemMetric`. -/
def createSystemMetric (s : MemStorage) (m : InsertSystemMetric) (now : Nat) :
    SystemMetric × MemStorage :=
  let id := s.currentId
  let met : SystemMetric :=
    { id := id, metricName := m.metricName, metricValue := m.metricValue, timestamp := now }
  (met, { s with systemMetrics := mapSet s.systemMetrics id met, currentId := id + 1 })

/-- Result record of `MemStorage.getDashboardStats`; the two ratio
fields are exact rationals. -/
structure DashboardStats where
  processedToday : Nat
  totalProcessed : Nat
  successRate : Rat
  averageProcessingTime : Rat
  activeAgents : Nat
deriving DecidableEq, Repr

/-- `MemStorage.getDashboardStats`: `todayStart` stands for midnight of
the current day computed from `new Date()`; `uniqueAgents || 4` is the
JavaScript falsy-zero default. -/
def getDashboardStats (s : MemStorage) (todayStart : Nat) : DashboardStats :=
  let allFiles := s.processedFiles.map Prod.snd
  let todayFiles := allFiles.filter (fun f => todayStart ≤ f.uploadedAt)
  let completedFiles := allFiles.filter (fun f => f.status == "completed")
  let activities := s.agentActivities.map Prod.snd
  let avgProcessingTime : Rat :=
    if activities.length > 0 then
      (((activities.map (fun a => a.processingTime.getD 0)).sum : Nat) : Rat) /
        (activities.length : Rat)
    else 0
  let uniqueAgents := ((activities.map (fun a => a.agentName)).eraseDups).length
  { processedToday := todayFiles.length
    totalProcessed := allFiles.length
    successRate :=
      if allFiles.length > 0 then
        ((completedFiles.length : Rat) / (allFiles.length : Rat)) * 100
      else 0
    averageProcessingTime := avgProcessingTime
    activeAgents := if uniqueAgents = 0 then 4 else uniqueAgents }

/-! ## Routes (`server/routes.ts`) -/

/-- Index of the last occurrence of a character in a list. -/
def lastIdxOf (c : Char) : List Char → Option Nat
  | [] => none
  | x :: xs =>
    match lastIdxOf c xs with
    | some i => some (i + 1)
    | none => if x = c then some 0 else none

/-- Split a character list on a separator character (the groups between
separators, like `String.split`). -/
def splitOnChar (c : Char) : List Char → List (List Char)
  | [] => [[]]
  | x :: xs =>
    if x = c then [] :: splitOnChar c xs
    else
      match splitOnChar c xs with
      | [] => [[x]]
      | g :: gs => (x :: g) :: gs

/-- ASCII lowercasing of one character, as
`String.prototype.toLowerCase` acts on ASCII. -/
def lowerChar (c : Char) : Char :=
  if 'A' ≤ c ∧ c ≤ 'Z' then Char.ofNat (c.toNat + 32) else c

/-- ASCII lowercasing of a string. -/
def lowerStr (s : String) : String := String.mk (s.data.map lowerChar)

/-- Node's `path.extname` on ordinary file names: the substring of the
basename (the part after the last `/`) from its last dot, inclusive;
empty when the basename has no dot or only a leading dot. -/
def extname (p : String) : String :=
  match lastIdxOf '.' ((splitOnChar '/' p.data).getLastD []) with
  | none => ""
  | some 0 => ""
  | some i => String.mk (((splitOnChar '/' p.data).getLastD []).drop i)

/-- The extension dispatch of the `/api/upload` handler (routes.ts lines
21–32): `path.extname(originalname).toLowerCase()` matched against the
three literal extension lists; `none` is the 400 "Unsupported file
type" branch.  The handler never reads the file's bytes. -/
def detectFileType (originalName : String) : Option String :=
  if lowerStr (extname originalName) = ".pdf" then some "PDF"
  else if lowerStr (extname originalName) = ".eml" ∨
      lowerStr (extname originalName) = ".msg" then some "Email"
  else if lowerStr (extname originalName) = ".json" then some "JSON"
  else none

/-- Boolean test that one character list is an initial segment of
another. -/
def listStartsWith : List Char → List Char → Bool
  | [], _ => true
  | _ :: _, [] => false
  | x :: xs, y :: ys => x = y && listStartsWith xs ys

/-- Modelled from the spec: the PDF magic-byte check named by §4.1
("`.pdf`→PDF magic-byte check").  No such check exists anywhere in the
repository's upload or processing code; this definition follows the
spec's words (a `%PDF` signature test on the content) solely so the
claim can be stated and compared with the source behaviour. -/
def pdfMagicCheck (content : String) : Bool :=
  listStartsWith "%PDF".data content.data

/-- Observable events of one upload/processing run, in program order:
record creation, status writes via `updateProcessedFile`, activity
appends via `createAgentActivity`, and the python `spawn`. -/
inductive Event where
  | create (fileId : Nat) (status : String)
  | statusWrite (fileId : Nat) (status : String)
  | activityWrite (a : AgentActivity)
  | spawn (fileId : Nat)
deriving DecidableEq, Repr

/-- The insert record built at routes.ts lines 182–191 for the
"Start Processing" activity; the `jsonb` input snapshot
`{ fileType, filePath }` is modelled as an opaque string. -/
def startInsert (fileId : Nat) (fileType filePath : String) : InsertAgentActivity :=
  { fileId := some fileId, agentName := "Classifier Agent",
    action := "Start Processing",
    input := some ("fileType:" ++ fileType ++ ";filePath:" ++ filePath),
    output := none, status := "pending", processingTime := none,
    errorMessage := none }

/-- `processFileWithAI` (routes.ts lines 173–217).  Every storage call
in its body is awaited, so it is a straight-line function of the store;
`spawnOk` is whether `spawn` succeeds (false throws into the catch
block) and `exitCode` is the python exit code seen by the close handler
(`≠ 0` marks the file failed).  When the initial status update throws
for a missing id, the catch block's own update throws for the same
reason and nothing is written. -/
def processFileWithAI (s : MemStorage) (fileId : Nat) (filePath fileType : String)
    (now : Nat) (spawnOk : Bool) (exitCode : Int) : MemStorage × List Event :=
  match updateProcessedFile s fileId
      { status := some "processing", processedAt := some (some now) } with
  | (Except.error _, _) => (s, [])
  | (Except.ok _, s1) =>
    let r2 := createAgentActivity s1 (startInsert fileId fileType filePath) now
    let evs0 := [Event.statusWrite fileId "processing", Event.activityWrite r2.1]
    if spawnOk then
      if exitCode = 0 then
        (r2.2, evs0 ++ [Event.spawn fileId])
      else
        match updateProcessedFile r2.2 fileId { status := some "failed" } with
        | (Except.ok _, s3) =>
          (s3, evs0 ++ [Event.spawn fileId, Event.statusWrite fileId "failed"])
        | (Except.error _, _) => (r2.2, evs0 ++ [Event.spawn fileId])
    else
      match updateProcessedFile r2.2 fileId { status := some "failed" } with
      | (Except.ok _, s3) => (s3, evs0 ++ [Event.statusWrite fileId "failed"])
      | (Except.error _, _) => (r2.2, evs0)

/-- Response of the `/api/upload` route: either an error status/message
or the `{ success: true, fileId, message }` JSON body. -/
inductive UploadResponse where
  | err (httpStatus : Nat) (msg : String)
  | ok (fileId : Nat) (message : String)
deriving DecidableEq, Repr

/-- The `/api/upload` handler (routes.ts lines 15–59) for a present
`req.file`: extension dispatch, `createProcessedFile` with literal
initial fields, the un-awaited `processFileWithAI` call, and the JSON
response.  `content` is the uploaded bytes, which the handler never
inspects; `filename` is multer's stored name. -/
def uploadRoute (s : MemStorage) (originalName filename content : String)
    (size now : Nat) (spawnOk : Bool) (exitCode : Int) :
    UploadResponse × MemStorage × List Event :=
  match detectFileType originalName with
  | none =>
    (UploadResponse.err 400
      "Unsupported file type. Please upload PDF, Email (.eml, .msg), or JSON files.",
     s, [])
  | some fileType =>
    let r := createProcessedFile s
      { filename := filename, originalName := originalName, fileType := fileType,
        size := size, status := "pending", classificationResult := none,
        extractedData := none, businessIntent := none, priority := some "low",
        agentAssigned := none } now
    let r2 := processFileWithAI r.2 r.1.id ("uploads/" ++ filename) fileType now
      spawnOk exitCode
    (UploadResponse.ok r.1.id "File uploaded successfully and processing started",
     r2.1, Event.create r.1.id r.1.status :: r2.2)

/-! ## The storage interface as an operation alphabet

`IStorage` (storage.ts lines 19–54) exposes exactly these methods; an
`Op` is one call.  Read methods do not change the store; the two
`update*` methods throw on a missing id and then leave the store
unchanged. -/

inductive Op where
  | getUser (id : Nat)
  | getUserByUsername (username : String)
  | createUser (u : InsertUser)
  | createProcessedFile (f : InsertProcessedFile) (now : Nat)
  | updateProcessedFile (id : Nat) (u : ProcessedFileUpdates)
  | getProcessedFile (id : Nat)
  | getProcessedFiles (limit : Nat)
  | getProcessedFilesByStatus (status : String)
  | createAgentActivity (a : InsertAgentActivity) (now : Nat)
  | getAgentActivities (fileId : Option Nat) (limit : Nat)
  | getAgentActivitiesByAgent (agentName : String)
  | createTriggeredAction (a : InsertTriggeredAction) (now : Nat)
  | getTriggeredActions (limit : Nat)
  | updateTriggeredAction (id : Nat) (u : TriggeredActionUpdates)
  | createSystemMetric (m : InsertSystemMetric) (now : Nat)
  | getSystemMetrics (metricName : Option String) (limit : Nat)
  | getLatestMetric (metricName : String)
  | getDashboardStats (todayStart : Nat)
deriving DecidableEq, Repr

/-- Effect of one `IStorage` call on the store. -/
def applyOp (op : Op) (s : MemStorage) : MemStorage :=
  match op with
  | .getUser _ => s
  | .getUserByUsername _ => s
  | .createUser u => (createUser s u).2
  | .createProcessedFile f now => (createProcessedFile s f now).2
  | .updateProcessedFile id u => (updateProcessedFile s id u).2
  | .getProcessedFile _ => s
  | .getProcessedFiles _ => s
  | .getProcessedFilesByStatus _ => s
  | .createAgentActivity a now => (createAgentActivity s a now).2
  | .getAgentActivities _ _ => s
  | .getAgentActivitiesByAgent _ => s
  | .createTriggeredAction a now => (createTriggeredAction s a now).2
  | .getTriggeredActions _ => s
  | .updateTriggeredAction id u => (updateTriggeredAction s id u).2
  | .createSystemMetric m now => (createSystemMetric s m now).2
  | .getSystemMetrics _ _ => s
  | .getLatestMetric _ => s
  | .getDashboardStats _ => s

/-- Sequential execution of a call history. -/
def applyAll (ops : List Op) (s : MemStorage) : MemStorage :=
  ops.foldl (fun t op => applyOp op t) s

/-- Every key of the map is below the bound. -/
def keysBound {α : Type} (m : List (Nat × α)) (n : Nat) : Prop :=
  ∀ p ∈ m, p.1 < n

/-- Store well-formedness: every id already handed out is below
`currentId`.  Holds for the fresh store and is preserved by every
operation. -/
def WF (s : MemStorage) : Prop :=
  keysBound s.users s.currentId ∧ keysBound s.processedFiles s.currentId ∧
  keysBound s.agentActivities s.currentId ∧ keysBound s.triggeredActions s.currentId ∧
  keysBound s.systemMetrics s.currentId

theorem keysBound_mono {α : Type} {m : List (Nat × α)} {n n' : Nat}
    (h : keysBound m n) (hle : n ≤ n') : keysBound m n' :=
  fun p hp => lt_of_lt_of_le (h p hp) hle

theorem keysBound_mapSet {α : Type} {m : List (Nat × α)} {n k : Nat} {v : α}
    (h : keysBound m n) (hk : k < n) : keysBound (mapSet m k v) n := by
  intro p hp
  rcases mem_mapSet m k v p hp with h1 | h1
  · rw [h1]; exact hk
  · exact h p h1

theorem WF_init : WF MemStorage.init := by
  refine ⟨?_, ?_, ?_, ?_, ?_⟩ <;> intro p hp <;> simp [MemStorage.init] at hp

theorem WF_create_step {α : Type} {m : List (Nat × α)} {n : Nat} {v : α}
    (h : keysBound m n) : keysBound (mapSet m n v) (n + 1) :=
  keysBound_mapSet (keysBound_mono h (Nat.le_succ n)) (Nat.lt_succ_self n)

theorem WF_apply (op : Op) (s : MemStorage) (h : WF s) : WF (applyOp op s) := by
  obtain ⟨h1, h2, h3, h4, h5⟩ := h
  cases op with
  | createUser u =>
    exact ⟨WF_create_step h1, keysBound_mono h2 (Nat.le_succ _),
      keysBound_mono h3 (Nat.le_succ _), keysBound_mono h4 (Nat.le_succ _),
      keysBound_mono h5 (Nat.le_succ _)⟩
  | createProcessedFile f now =>
    exact ⟨keysBound_mono h1 (Nat.le_succ _), WF_create_step h2,
      keysBound_mono h3 (Nat.le_succ _), keysBound_mono h4 (Nat.le_succ _),
      keysBound_mono h5 (Nat.le_succ _)⟩
  | createAgentActivity a now =>
    exact ⟨keysBound_mono h1 (Nat.le_succ _), keysBound_mono h2 (Nat.le_succ _),
      WF_create_step h3, keysBound_mono h4 (Nat.le_succ _),
      keysBound_mono h5 (Nat.le_succ _)⟩
  | createTriggeredAction a now =>
    exact ⟨keysBound_mono h1 (Nat.le_succ _), keysBound_mono h2 (Nat.le_succ _),
      keysBound_mono h3 (Nat.le_succ _), WF_create_step h4,
      keysBound_mono h5 (Nat.le_succ _)⟩
  | createSystemMetric m now =>
    exact ⟨keysBound_mono h1 (Nat.le_succ _), keysBound_mono h2 (Nat.le_succ _),
      keysBound_mono h3 (Nat.le_succ _), keysBound_mono h4 (Nat.le_succ _),
      WF_create_step h5⟩
  | updateProcessedFile id u =>
    rcases hm : mapGet s.processedFiles id with _ | e
    · simp [applyOp, updateProcessedFile, hm]
      exact ⟨h1, h2, h3, h4, h5⟩
    · have hid : id < s.currentId := h2 _ (mapGet_mem _ _ _ hm)
      simp [applyOp, updateProcessedFile, hm]
      exact ⟨h1, keysBound_mapSet h2 hid, h3, h4, h5⟩
  | updateTriggeredAction id u =>
    rcases hm : mapGet s.triggeredActions id with _ | e
    · simp [applyOp, updateTriggeredAction, hm]
      exact ⟨h1, h2, h3, h4, h5⟩
    · have hid : id < s.currentId := h4 _ (mapGet_mem _ _ _ hm)
      simp [applyOp, updateTriggeredAction, hm]
      exact ⟨h1, h2, h3, keysBound_mapSet h4 hid, h5⟩
  | getUser id => exact ⟨h1, h2, h3, h4, h5⟩
  | getUserByUsername u => exact ⟨h1, h2, h3, h4, h5⟩
  | getProcessedFile id => exact ⟨h1, h2, h3, h4, h5⟩
  | getProcessedFiles l => exact ⟨h1, h2, h3, h4, h5⟩
  | getProcessedFilesByStatus st => exact ⟨h1, h2, h3, h4, h5⟩
  | getAgentActivities f l => exact ⟨h1, h2, h3, h4, h5⟩
  | getAgentActivitiesByAgent a => exact ⟨h1, h2, h3, h4, h5⟩
  | getTriggeredActions l => exact ⟨h1, h2, h3, h4, h5⟩
  | getSystemMetrics n l => exact ⟨h1, h2, h3, h4, h5⟩
  | getLatestMetric n => exact ⟨h1, h2, h3, h4, h5⟩
  | getDashboardStats t => exact ⟨h1, h2, h3, h4, h5⟩

theorem WF_applyAll (ops : List Op) (s : MemStorage) (h : WF s) :
    WF (applyAll ops s) := by
  induction ops generalizing s with
  | nil => simpa [applyAll] using h
  | cons op ops ih =>
    have := ih (applyOp op s) (WF_apply op s h)
    simpa [applyAll, List.foldl_cons] using this

/-! ## Run characterization for the upload route -/

/-- The processed-file record as created by the upload handler. -/
def uploadedPF (s : MemStorage) (originalName filename fileType : String)
    (size now : Nat) : ProcessedFile :=
  { id := s.currentId, filename := filename, originalName := originalName,
    fileType := fileType, size := size, uploadedAt := now, processedAt := none,
    status := "pending", classificationResult := none, extractedData := none,
    businessIntent := none, priority := some "low", agentAssigned := none }

/-- The record after the `processing` status update. -/
def startedPF (s : MemStorage) (originalName filename fileType : String)
    (size now : Nat) : ProcessedFile :=
  { uploadedPF s originalName filename fileType size now with
    status := "processing", processedAt := some now }

/-- The record after the failure path's `failed` status update. -/
def failedPF (s : MemStorage) (originalName filename fileType : String)
    (size now : Nat) : ProcessedFile :=
  { startedPF s originalName filename fileType size now with status := "failed" }

/-- The "Start Processing" activity as stored by the run. -/
def startActivity (s : MemStorage) (filename fileType : String) (now : Nat) :
    AgentActivity :=
  { id := s.currentId + 1, fileId := some s.currentId,
    agentName := "Classifier Agent", action := "Start Processing",
    input := some ("fileType:" ++ fileType ++ ";filePath:" ++ ("uploads/" ++ filename)),
    output := none, status := "pending", timestamp := now,
    processingTime := none, errorMessage := none }

/-- Final store of a successful run (exit code 0). -/
def okStore (s : MemStorage) (originalName filename fileType : String)
    (size now : Nat) : MemStorage :=
  { s with
    processedFiles := mapSet s.processedFiles s.currentId
      (startedPF s originalName filename fileType size now),
    agentActivities := mapSet s.agentActivities (s.currentId + 1)
      (startActivity s filename fileType now),
    currentId := s.currentId + 2 }

/-- Final store of a failed run (spawn threw or nonzero exit code). -/
def failStore (s : MemStorage) (originalName filename fileType : String)
    (size now : Nat) : MemStorage :=
  { s with
    processedFiles := mapSet s.processedFiles s.currentId
      (failedPF s originalName filename fileType size now),
    agentActivities := mapSet s.agentActivities (s.currentId + 1)
      (startActivity s filename fileType now),
    currentId := s.currentId + 2 }

/-- Event trace of a successful run. -/
def okTrace (s : MemStorage) (filename fileType : String) (now : Nat) : List Event :=
  [Event.create s.currentId "pending",
   Event.statusWrite s.currentId "processing",
   Event.activityWrite (startActivity s filename fileType now),
   Event.spawn s.currentId]

/-- Event trace of a run whose python process exits nonzero. -/
def failSpawnTrace (s : MemStorage) (filename fileType : String) (now : Nat) :
    List Event :=
  [Event.create s.currentId "pending",
   Event.statusWrite s.currentId "processing",
   Event.activityWrite (startActivity s filename fileType now),
   Event.spawn s.currentId,
   Event.statusWrite s.currentId "failed"]

/-- Event trace of a run where `spawn` itself throws. -/
def noSpawnTrace (s : MemStorage) (filename fileType : String) (now : Nat) :
    List Event :=
  [Event.create s.currentId "pending",
   Event.statusWrite s.currentId "processing",
   Event.activityWrite (startActivity s filename fileType now),
   Event.statusWrite s.currentId "failed"]

/-- Full characterization of one upload run on a recognized extension:
the response, the final store and the event trace in each of the three
outcome cases. -/
theorem uploadRoute_spec (s : MemStorage) (originalName filename content : String)
    (size now : Nat) (spawnOk : Bool) (exitCode : Int) (fileType : String)
    (hft : detectFileType originalName = some fileType) :
    uploadRoute s originalName filename content size now spawnOk exitCode =
      (UploadResponse.ok s.currentId "File uploaded successfully and processing started",
       (if spawnOk = true ∧ exitCode = 0 then
          okStore s originalName filename fileType size now
        else failStore s originalName filename fileType size now),
       (if spawnOk = true then
          (if exitCode = 0 then okTrace s filename fileType now
           else failSpawnTrace s filename fileType now)
        else noSpawnTrace s filename fileType now)) := by
  cases spawnOk with
  | true =>
    by_cases hc : exitCode = 0
    · simp [uploadRoute, hft, processFileWithAI, createProcessedFile,
        createAgentActivity, updateProcessedFile, startInsert,
        mapGet_mapSet_self, mapSet_mapSet_self, applyFileUpdates, hc,
        okStore, okTrace, uploadedPF, startedPF, startActivity]
    · simp [uploadRoute, hft, processFileWithAI, createProcessedFile,
        createAgentActivity, updateProcessedFile, startInsert,
        mapGet_mapSet_self, mapSet_mapSet_self, applyFileUpdates, hc,
        failStore, failSpawnTrace, uploadedPF, startedPF, failedPF, startActivity]
  | false =>
    simp [uploadRoute, hft, processFileWithAI, createProcessedFile,
      createAgentActivity, updateProcessedFile, startInsert,
      mapGet_mapSet_self, mapSet_mapSet_self, applyFileUpdates,
      failStore, noSpawnTrace, uploadedPF, startedPF, failedPF, startActivity]

/-! ## Trace predicates -/

/-- Event is a status write through `updateProcessedFile`. -/
def isStatusWrite : Event → Bool
  | .statusWrite _ _ => true
  | _ => false

/-- Event writes a terminal document status. -/
def isTerminalWrite : Event → Bool
  | .statusWrite _ st => st == "completed" || st == "failed"
  | _ => false

/-- Event is the `processing` status write. -/
def isProcessingWrite : Event → Bool
  | .statusWrite _ st => st == "processing"
  | _ => false

/-- Event is agent work: an activity append or the python spawn. -/
def isAgentWork : Event → Bool
  | .activityWrite _ => true
  | .spawn _ => true
  | _ => false

/-- The document-status values put into the store, in order. -/
def statusEvents : List Event → List String
  | [] => []
  | .create _ st :: evs => st :: statusEvents evs
  | .statusWrite _ st :: evs => st :: statusEvents evs
  | _ :: evs => statusEvents evs

/-- Membership in the documented status surface. -/
def statusOk (st : String) : Bool :=
  st == "pending" || st == "processing" || st == "completed" || st == "failed"

/-- No status write ever follows a terminal status write. -/
def noWriteAfterTerminal : List Event → Bool
  | [] => true
  | e :: evs =>
    (!isTerminalWrite e || evs.all (fun x => !isStatusWrite x)) &&
      noWriteAfterTerminal evs

/-- Scanning left to right, no agent work happens before the
`processing` status write. -/
def noWorkBeforeProcessing : List Event → Bool
  | [] => true
  | e :: evs => !isAgentWork e && (isProcessingWrite e || noWorkBeforeProcessing evs)

/-- Scanning left to right, the classifier's "Start Processing"
activity append happens before any spawn of the agent pipeline. -/
def classifierLoggedBeforeSpawn : List Event → Bool
  | [] => true
  | .spawn _ :: _ => false
  | .activityWrite a :: evs =>
    (a.agentName == "Classifier Agent" && a.action == "Start Processing") ||
      classifierLoggedBeforeSpawn evs
  | _ :: evs => classifierLoggedBeforeSpawn evs

/-! ## Claims -/

/-- Claim C2 (counterexample): the claim says a file is assigned format
PDF only if it has the `.pdf` extension AND passes the PDF magic-byte
check.  The upload of a file named `fake.pdf` whose content is
`hello world` — which fails the magic-byte check — is nevertheless
accepted and recorded with `fileType = "PDF"`: the handler never looks
at the content. -/
theorem upload_pdf_without_magic_counterexample :
    (uploadRoute MemStorage.init "fake.pdf" "f1" "hello world" 11 0 true 0).1 =
      UploadResponse.ok 1 "File uploaded successfully and processing started"
    ∧ (getProcessedFile
        (uploadRoute MemStorage.init "fake.pdf" "f1" "hello world" 11 0 true 0).2.1 1).map
          (fun r => r.fileType) = some "PDF"
    ∧ pdfMagicCheck "hello world" = false :=
  ⟨rfl, rfl, rfl⟩

/-- Claim C2 (amended): the detected format is determined by the
declared extension alone — the run is entirely independent of the
file's content, and each format corresponds exactly to its
(lower-cased) extension set; no content signature is ever consulted. -/
theorem upload_format_by_extension_only (s : MemStorage)
    (originalName filename c c' : String) (size now : Nat)
    (spawnOk : Bool) (exitCode : Int) :
    uploadRoute s originalName filename c size now spawnOk exitCode =
      uploadRoute s originalName filename c' size now spawnOk exitCode
    ∧ (detectFileType originalName = some "PDF" ↔
        lowerStr (extname originalName) = ".pdf")
    ∧ (detectFileType originalName = some "Email" ↔
        (lowerStr (extname originalName) = ".eml" ∨
         lowerStr (extname originalName) = ".msg"))
    ∧ (detectFileType originalName = some "JSON" ↔
        lowerStr (extname originalName) = ".json") := by
  refine ⟨rfl, ?_, ?_, ?_⟩ <;>
    unfold detectFileType <;>
    split_ifs with h1 h2 h3 <;>
    (try rcases h2 with h2 | h2) <;> simp_all

/-- Claim C6: the upload fails with the "Unsupported file type" error
exactly when the lower-cased extension is outside
`{.pdf, .eml, .msg, .json}`; in that case the store is untouched (no
ProcessedFile is created); for every recognized extension a
ProcessedFile is created whose `fileType` is the corresponding format,
and recognition never fails for a recognized extension. -/
theorem upload_unsupported_iff (s : MemStorage) (originalName filename content : String)
    (size now : Nat) (spawnOk : Bool) (exitCode : Int) :
    ((uploadRoute s originalName filename content size now spawnOk exitCode).1 =
        UploadResponse.err 400
          "Unsupported file type. Please upload PDF, Email (.eml, .msg), or JSON files."
      ↔ ¬(lowerStr (extname originalName) = ".pdf" ∨
          lowerStr (extname originalName) = ".eml" ∨
          lowerStr (extname originalName) = ".msg" ∨
          lowerStr (extname originalName) = ".json"))
    ∧ (detectFileType originalName = none →
        (uploadRoute s originalName filename content size now spawnOk exitCode).2.1 = s)
    ∧ (∀ fileType, detectFileType originalName = some fileType →
        ∃ r, getProcessedFile
            (uploadRoute s originalName filename content size now spawnOk exitCode).2.1
            s.currentId = some r
          ∧ r.fileType = fileType ∧ r.originalName = originalName
          ∧ r.filename = filename ∧ r.size = size)
    ∧ (detectFileType originalName = none ↔
        ¬(lowerStr (extname originalName) = ".pdf" ∨
          lowerStr (extname originalName) = ".eml" ∨
          lowerStr (extname originalName) = ".msg" ∨
          lowerStr (extname originalName) = ".json")) := by
  refine ⟨?_, ?_, ?_, ?_⟩
  · cases hd : detectFileType originalName with
    | none =>
      have : ¬(lowerStr (extname originalName) = ".pdf" ∨
          lowerStr (extname originalName) = ".eml" ∨
          lowerStr (extname originalName) = ".msg" ∨
          lowerStr (extname originalName) = ".json") := by
        revert hd; unfold detectFileType; split_ifs with h1 h2 h3 <;> simp_all
      simp [uploadRoute, hd, this]
    | some ft =>
      have : lowerStr (extname originalName) = ".pdf" ∨
          lowerStr (extname originalName) = ".eml" ∨
          lowerStr (extname originalName) = ".msg" ∨
          lowerStr (extname originalName) = ".json" := by
        revert hd; unfold detectFileType
        split_ifs with h1 h2 h3 <;>
          (try rcases h2 with h2 | h2) <;> simp_all
      rw [uploadRoute_spec s originalName filename content size now spawnOk exitCode ft hd]
      simp [this]
  · intro hd; simp [uploadRoute, hd]
  · intro ft hft
    rw [uploadRoute_spec s originalName filename content size now spawnOk exitCode ft hft]
    by_cases hc : spawnOk = true ∧ exitCode = 0
    · refine ⟨startedPF s originalName filename ft size now, ?_, rfl, rfl, rfl, rfl⟩
      simp [hc, getProcessedFile, okStore, mapGet_mapSet_self]
    · refine ⟨failedPF s originalName filename ft size now, ?_, rfl, rfl, rfl, rfl⟩
      simp [hc, getProcessedFile, failStore, mapGet_mapSet_self]
  · unfold detectFileType
    split_ifs with h1 h2 h3 <;>
      (try rcases h2 with h2 | h2) <;> simp_all

/-- Claim C6 witness: a concrete unsupported upload (`notes.txt`) is
rejected and leaves the store unchanged, and a concrete supported
upload (`data.json`) creates a record with format JSON. -/
theorem upload_unsupported_iff_witness :
    ((uploadRoute MemStorage.init "notes.txt" "f1" "" 3 0 true 0).1 =
        UploadResponse.err 400
          "Unsupported file type. Please upload PDF, Email (.eml, .msg), or JSON files.")
    ∧ (uploadRoute MemStorage.init "notes.txt" "f1" "" 3 0 true 0).2.1 = MemStorage.init
    ∧ ∃ r, getProcessedFile
          (uploadRoute MemStorage.init "data.json" "f2" "" 3 0 true 0).2.1 1 = some r
        ∧ r.fileType = "JSON" ∧ r.originalName = "data.json"
        ∧ r.filename = "f2" ∧ r.size = 3 := by
  refine ⟨?_, ?_, ?_⟩
  · exact (upload_unsupported_iff MemStorage.init "notes.txt" "f1" "" 3 0 true 0).1.mpr
      (by decide)
  · exact (upload_unsupported_iff MemStorage.init "notes.txt" "f1" "" 3 0 true 0).2.1
      (by decide)
  · exact (upload_unsupported_iff MemStorage.init "data.json" "f2" "" 3 0 true 0).2.2.1
      "JSON" (by decide)

/-- Claim C7: ingress is fire-and-forget — the HTTP response of an
upload is independent of whether the processing pipeline spawns or of
its exit code, and for a recognized extension the response is exactly
`{ success, fileId, message }` with no classification, extraction or
action payload. -/
theorem upload_fire_and_forget (s : MemStorage) (originalName filename content : String)
    (size now : Nat) (spawnOk spawnOk' : Bool) (exitCode exitCode' : Int) :
    (uploadRoute s originalName filename content size now spawnOk exitCode).1 =
      (uploadRoute s originalName filename content size now spawnOk' exitCode').1
    ∧ (∀ fileType, detectFileType originalName = some fileType →
        (uploadRoute s originalName filename content size now spawnOk exitCode).1 =
          UploadResponse.ok s.currentId
            "File uploaded successfully and processing started") := by
  constructor
  · cases hd : detectFileType originalName <;> simp [uploadRoute, hd]
  · intro ft hft
    rw [uploadRoute_spec s originalName filename content size now spawnOk exitCode ft hft]

/-- Claim C7 witness: the response to a concrete upload is the same
whether the pipeline succeeds or its spawn throws, and equals the fixed
success body. -/
theorem upload_fire_and_forget_witness :
    (uploadRoute MemStorage.init "a.pdf" "f1" "x" 1 0 true 0).1 =
      (uploadRoute MemStorage.init "a.pdf" "f1" "x" 1 0 false 3).1
    ∧ (uploadRoute MemStorage.init "a.pdf" "f1" "x" 1 0 true 0).1 =
        UploadResponse.ok 1 "File uploaded successfully and processing started" :=
  ⟨(upload_fire_and_forget MemStorage.init "a.pdf" "f1" "x" 1 0 true false 0 3).1,
   (upload_fire_and_forget MemStorage.init "a.pdf" "f1" "x" 1 0 true true 0 0).2
     "PDF" (by decide)⟩

/-- Claim C1 (counterexample): a concrete upload whose python process
exits with code 1 ends with the document in status `failed`, yet every
activity in the store still has status `pending` and no error message —
`processFileWithAI` appends no ActivityRecord documenting the failure;
the single activity on file 1 is the pre-pipeline "Start Processing"
record. -/
theorem failure_not_logged_counterexample :
    ((getProcessedFile (uploadRoute MemStorage.init "invoice.pdf" "f1" "x" 5 0 true 1).2.1 1).map
        (fun r => r.status) = some "failed")
    ∧ (((uploadRoute MemStorage.init "invoice.pdf" "f1" "x" 5 0 true 1).2.1.agentActivities.map
          Prod.snd).all
        (fun a => a.status == "pending" && a.errorMessage == none)) = true
    ∧ (activitiesForFile (uploadRoute MemStorage.init "invoice.pdf" "f1" "x" 5 0 true 1).2.1 1).length
        = 1 :=
  ⟨rfl, rfl, rfl⟩

/-- Claim C1 (amended): when processing fails (spawn throws or the
python process exits nonzero), `processFileWithAI` marks the document
`failed`, and the document does have at least one ActivityRecord — but
that record is only the "Start Processing" entry appended before the
pipeline ran, still in status `pending` with no error message; the
failure path itself appends nothing. -/
theorem failed_run_activity_trail (s : MemStorage)
    (originalName filename content fileType : String) (size now : Nat)
    (spawnOk : Bool) (exitCode : Int) (hwf : WF s)
    (hft : detectFileType originalName = some fileType)
    (hfail : spawnOk = false ∨ exitCode ≠ 0) :
    ((getProcessedFile
        (uploadRoute s originalName filename content size now spawnOk exitCode).2.1
        s.currentId).map (fun r => r.status) = some "failed")
    ∧ activitiesForFile
        (uploadRoute s originalName filename content size now spawnOk exitCode).2.1
        s.currentId =
      activitiesForFile s s.currentId ++ [startActivity s filename fileType now]
    ∧ (startActivity s filename fileType now).status = "pending"
    ∧ (startActivity s filename fileType now).errorMessage = none := by
  rw [uploadRoute_spec s originalName filename content size now spawnOk exitCode
    fileType hft]
  have hif : ¬(spawnOk = true ∧ exitCode = 0) := by
    rcases hfail with h | h <;> simp_all
  rw [if_neg hif]
  have hfresh : ∀ p ∈ s.agentActivities, p.1 ≠ s.currentId + 1 := by
    intro p hp
    have := hwf.2.2.1 p hp
    omega
  refine ⟨?_, ?_, rfl, rfl⟩
  · simp [getProcessedFile, failStore, mapGet_mapSet_self, failedPF, startedPF]
  · simp [activitiesForFile, failStore, mapSet_eq_append _ _ _ hfresh, startActivity]

/-- Claim C1 (amended) witness: concrete failing run on the fresh
store. -/
theorem failed_run_activity_trail_witness :
    ((getProcessedFile (uploadRoute MemStorage.init "claim.eml" "f9" "x" 2 6 false 0).2.1 1).map
        (fun r => r.status) = some "failed")
    ∧ activitiesForFile (uploadRoute MemStorage.init "claim.eml" "f9" "x" 2 6 false 0).2.1 1 =
        activitiesForFile MemStorage.init 1 ++ [startActivity MemStorage.init "f9" "Email" 6]
    ∧ (startActivity MemStorage.init "f9" "Email" 6).status = "pending"
    ∧ (startActivity MemStorage.init "f9" "Email" 6).errorMessage = none :=
  failed_run_activity_trail MemStorage.init "claim.eml" "f9" "x" "Email" 2 6 false 0
    WF_init (by decide) (Or.inl rfl)

/-- Claim C3: over one upload run, the document's status surface is the
documented four-value set, the record is created with status `pending`,
the `processing` status is written exactly once and before any agent
work (activity append or spawn), and once a terminal status
(`completed`/`failed`) is written no further status write follows. -/
theorem status_lifecycle (s : MemStorage) (originalName filename content fileType : String)
    (size now : Nat) (spawnOk : Bool) (exitCode : Int)
    (hft : detectFileType originalName = some fileType) :
    (uploadRoute s originalName filename content size now spawnOk exitCode).2.2.head? =
        some (Event.create s.currentId "pending")
    ∧ (statusEvents
        (uploadRoute s originalName filename content size now spawnOk exitCode).2.2).all
        statusOk = true
    ∧ ((uploadRoute s originalName filename content size now spawnOk exitCode).2.2.filter
        isProcessingWrite).length = 1
    ∧ noWorkBeforeProcessing
        (uploadRoute s originalName filename content size now spawnOk exitCode).2.2 = true
    ∧ noWriteAfterTerminal
        (uploadRoute s originalName filename content size now spawnOk exitCode).2.2 = true := by
  rw [uploadRoute_spec s originalName filename content size now spawnOk exitCode
    fileType hft]
  cases spawnOk with
  | true =>
    by_cases hc : exitCode = 0 <;>
      simp [hc, okTrace, failSpawnTrace, startActivity, statusEvents, statusOk,
        isProcessingWrite, isStatusWrite, isTerminalWrite, isAgentWork,
        noWorkBeforeProcessing, noWriteAfterTerminal]
  | false =>
    simp [noSpawnTrace, startActivity, statusEvents, statusOk,
      isProcessingWrite, isStatusWrite, isTerminalWrite, isAgentWork,
      noWorkBeforeProcessing, noWriteAfterTerminal]

/-- Claim C3 witness: concrete run with nonzero exit code on the fresh
store. -/
theorem status_lifecycle_witness :
    (uploadRoute MemStorage.init "report.json" "f3" "x" 4 9 true 2).2.2.head? =
        some (Event.create 1 "pending")
    ∧ (statusEvents (uploadRoute MemStorage.init "report.json" "f3" "x" 4 9 true 2).2.2).all
        statusOk = true
    ∧ ((uploadRoute MemStorage.init "report.json" "f3" "x" 4 9 true 2).2.2.filter
        isProcessingWrite).length = 1
    ∧ noWorkBeforeProcessing
        (uploadRoute MemStorage.init "report.json" "f3" "x" 4 9 true 2).2.2 = true
    ∧ noWriteAfterTerminal
        (uploadRoute MemStorage.init "report.json" "f3" "x" 4 9 true 2).2.2 = true :=
  status_lifecycle MemStorage.init "report.json" "f3" "x" "JSON" 4 9 true 2 (by decide)

/-- Claim C5: in every upload run's trace, the classifier's
"Start Processing" ActivityRecord append occurs before any spawn of the
agent pipeline — the orchestration never starts the pipeline before the
classification-stage record is in the store. -/
theorem classifier_logged_before_pipeline (s : MemStorage)
    (originalName filename content fileType : String) (size now : Nat)
    (spawnOk : Bool) (exitCode : Int)
    (hft : detectFileType originalName = some fileType) :
    classifierLoggedBeforeSpawn
      (uploadRoute s originalName filename content size now spawnOk exitCode).2.2 = true := by
  rw [uploadRoute_spec s originalName filename content size now spawnOk exitCode
    fileType hft]
  cases spawnOk with
  | true =>
    by_cases hc : exitCode = 0 <;>
      simp [hc, okTrace, failSpawnTrace, startActivity, classifierLoggedBeforeSpawn]
  | false => simp [noSpawnTrace, startActivity, classifierLoggedBeforeSpawn]

/-- Claim C5 witness: concrete successful run. -/
theorem classifier_logged_before_pipeline_witness :
    classifierLoggedBeforeSpawn
      (uploadRoute MemStorage.init "a.msg" "f4" "x" 2 1 true 0).2.2 = true :=
  classifier_logged_before_pipeline MemStorage.init "a.msg" "f4" "x" "Email" 2 1 true 0
    (by decide)

/-- One storage call preserves every stored agent activity unchanged
(the interface has no update or delete for activities, and create ops
use a fresh id). -/
theorem activity_preserved (op : Op) (s : MemStorage) (hwf : WF s) (id : Nat)
    (a : AgentActivity) (h : mapGet s.agentActivities id = some a) :
    mapGet (applyOp op s).agentActivities id = some a := by
  cases op with
  | createAgentActivity x now =>
    have hid : id < s.currentId := hwf.2.2.1 _ (mapGet_mem _ _ _ h)
    have hne : id ≠ s.currentId := by omega
    simpa [applyOp, createAgentActivity, mapGet_mapSet_ne _ _ _ _ hne] using h
  | updateProcessedFile i u =>
    rcases hm : mapGet s.processedFiles i with _ | e <;>
      simp [applyOp, updateProcessedFile, hm, h]
  | updateTriggeredAction i u =>
    rcases hm : mapGet s.triggeredActions i with _ | e <;>
      simp [applyOp, updateTriggeredAction, hm, h]
  | createUser u => simpa [applyOp, createUser] using h
  | createProcessedFile f now => simpa [applyOp, createProcessedFile] using h
  | createTriggeredAction x now => simpa [applyOp, createTriggeredAction] using h
  | createSystemMetric m now => simpa [applyOp, createSystemMetric] using h
  | getUser i => simpa [applyOp] using h
  | getUserByUsername u => simpa [applyOp] using h
  | getProcessedFile i => simpa [applyOp] using h
  | getProcessedFiles l => simpa [applyOp] using h
  | getProcessedFilesByStatus st => simpa [applyOp] using h
  | getAgentActivities f l => simpa [applyOp] using h
  | getAgentActivitiesByAgent n => simpa [applyOp] using h
  | getTriggeredActions l => simpa [applyOp] using h
  | getSystemMetrics n l => simpa [applyOp] using h
  | getLatestMetric n => simpa [applyOp] using h
  | getDashboardStats t => simpa [applyOp] using h

/-- An activity survives any further call history unchanged, from any
well-formed store. -/
theorem activity_preserved_all (more : List Op) (s : MemStorage) (hwf : WF s)
    (id : Nat) (a : AgentActivity) (h : mapGet s.agentActivities id = some a) :
    mapGet (applyAll more s).agentActivities id = some a := by
  induction more generalizing s with
  | nil => simpa [applyAll] using h
  | cons op ops ih =>
    have h1 := activity_preserved op s hwf id a h
    have := ih (applyOp op s) (WF_apply op s hwf) h1
    simpa [applyAll, List.foldl_cons] using this

/-- Claim C4: agent activities are append-only.  Against any call
history over the full `IStorage` interface starting from the fresh
store, an AgentActivity present after some prefix of calls is still
present, byte-for-byte unchanged, after any further calls: the
interface offers only create and read operations for activities, so
none is ever modified or deleted. -/
theorem activities_append_only (ops more : List Op) (id : Nat) (a : AgentActivity)
    (h : mapGet (applyAll ops MemStorage.init).agentActivities id = some a) :
    mapGet (applyAll (ops ++ more) MemStorage.init).agentActivities id = some a := by
  have hsplit : applyAll (ops ++ more) MemStorage.init =
      applyAll more (applyAll ops MemStorage.init) := by
    simp [applyAll, List.foldl_append]
  rw [hsplit]
  exact activity_preserved_all more (applyAll ops MemStorage.init)
    (WF_applyAll ops MemStorage.init WF_init) id a h

/-- Sample insert records for the concrete witnesses. -/
def sampleInsertActivity : InsertAgentActivity :=
  { fileId := none, agentName := "Classifier Agent", action := "Start Processing",
    input := none, output := none, status := "pending", processingTime := none,
    errorMessage := none }

/-- The stored activity produced by `sampleInsertActivity` at id 1,
time 5. -/
def sampleStoredActivity : AgentActivity :=
  { id := 1, fileId := none, agentName := "Classifier Agent",
    action := "Start Processing", input := none, output := none,
    status := "pending", timestamp := 5, processingTime := none,
    errorMessage := none }

/-- Sample insert record for a processed file. -/
def sampleInsertFile : InsertProcessedFile :=
  { filename := "f", originalName := "a.pdf", fileType := "PDF", size := 1,
    status := "pending", classificationResult := none, extractedData := none,
    businessIntent := none, priority := some "low", agentAssigned := none }

/-- Claim C4 witness: a concrete activity written by the first call
survives a later processed-file creation and update untouched. -/
theorem activities_append_only_witness :
    mapGet (applyAll [Op.createAgentActivity sampleInsertActivity 5]
        MemStorage.init).agentActivities 1 = some sampleStoredActivity
    ∧ mapGet (applyAll ([Op.createAgentActivity sampleInsertActivity 5] ++
        [Op.createProcessedFile sampleInsertFile 6,
         Op.updateProcessedFile 2 { status := some "failed" }])
        MemStorage.init).agentActivities 1 = some sampleStoredActivity := by
  refine ⟨by decide, ?_⟩
  exact activities_append_only [Op.createAgentActivity sampleInsertActivity 5]
    [Op.createProcessedFile sampleInsertFile 6,
     Op.updateProcessedFile 2 { status := some "failed" }]
    1 sampleStoredActivity (by decide)

/-! ## Id assignment across the shared counter -/

/-- Whether a call allocates a fresh id from `currentId`. -/
def isCreateOp : Op → Bool
  | .createUser _ => true
  | .createProcessedFile _ _ => true
  | .createAgentActivity _ _ => true
  | .createTriggeredAction _ _ => true
  | .createSystemMetric _ _ => true
  | _ => false

/-- The ids handed out by the create calls of a history, in order. -/
def assignedIds : List Op → MemStorage → List Nat
  | [], _ => []
  | op :: ops, s =>
    if isCreateOp op then s.currentId :: assignedIds ops (applyOp op s)
    else assignedIds ops (applyOp op s)

theorem currentId_mono (op : Op) (s : MemStorage) :
    s.currentId ≤ (applyOp op s).currentId := by
  cases op with
  | updateProcessedFile i u =>
    rcases hm : mapGet s.processedFiles i with _ | e <;>
      simp [applyOp, updateProcessedFile, hm]
  | updateTriggeredAction i u =>
    rcases hm : mapGet s.triggeredActions i with _ | e <;>
      simp [applyOp, updateTriggeredAction, hm]
  | createUser u => simp [applyOp, createUser]
  | createProcessedFile f now => simp [applyOp, createProcessedFile]
  | createAgentActivity a now => simp [applyOp, createAgentActivity]
  | createTriggeredAction a now => simp [applyOp, createTriggeredAction]
  | createSystemMetric m now => simp [applyOp, createSystemMetric]
  | getUser i => simp [applyOp]
  | getUserByUsername u => simp [applyOp]
  | getProcessedFile i => simp [applyOp]
  | getProcessedFiles l => simp [applyOp]
  | getProcessedFilesByStatus st => simp [applyOp]
  | getAgentActivities f l => simp [applyOp]
  | getAgentActivitiesByAgent n => simp [applyOp]
  | getTriggeredActions l => simp [applyOp]
  | getSystemMetrics n l => simp [applyOp]
  | getLatestMetric n => simp [applyOp]
  | getDashboardStats t => simp [applyOp]

theorem createOp_currentId (op : Op) (s : MemStorage) (h : isCreateOp op = true) :
    (applyOp op s).currentId = s.currentId + 1 := by
  cases op <;> simp [isCreateOp] at h <;>
    simp [applyOp, createUser, createProcessedFile, createAgentActivity,
      createTriggeredAction, createSystemMetric]

theorem assignedIds_lower_bound (ops : List Op) (s : MemStorage) (x : Nat)
    (hx : x ∈ assignedIds ops s) : s.currentId ≤ x := by
  induction ops generalizing s with
  | nil => simp [assignedIds] at hx
  | cons op ops ih =>
    by_cases hc : isCreateOp op
    · rcases (by simpa [assignedIds, hc] using hx) with h1 | h1
      · omega
      · have := ih (applyOp op s) h1
        have := currentId_mono op s
        omega
    · have h1 := (by simpa [assignedIds, hc] using hx :
        x ∈ assignedIds ops (applyOp op s))
      have := ih (applyOp op s) h1
      have := currentId_mono op s
      omega

theorem assignedIds_pairwise (ops : List Op) (s : MemStorage) :
    List.Pairwise (· < ·) (assignedIds ops s) := by
  induction ops generalizing s with
  | nil => simp [assignedIds]
  | cons op ops ih =>
    by_cases hc : isCreateOp op
    · rw [show assignedIds (op :: ops) s =
          s.currentId :: assignedIds ops (applyOp op s) from by simp [assignedIds, hc]]
      refine List.pairwise_cons.mpr ⟨?_, ih (applyOp op s)⟩
      intro x hx
      have hlb := assignedIds_lower_bound ops (applyOp op s) x hx
      have hstep := createOp_currentId op s hc
      omega
    · rw [show assignedIds (op :: ops) s = assignedIds ops (applyOp op s) from by
        simp [assignedIds, hc]]
      exact ih (applyOp op s)

/-- Claim C8: `createProcessedFile` returns a record whose
non-generated fields equal the insert's, whose id is the current
counter value, and which `getProcessedFile` returns exactly; and across
any call history the ids handed out by successive create operations of
all entity types (which share one counter) are pairwise distinct and
strictly increasing. -/
theorem create_get_roundtrip (s : MemStorage) (f : InsertProcessedFile) (now : Nat)
    (ops : List Op) :
    (createProcessedFile s f now).1.filename = f.filename
    ∧ (createProcessedFile s f now).1.originalName = f.originalName
    ∧ (createProcessedFile s f now).1.fileType = f.fileType
    ∧ (createProcessedFile s f now).1.size = f.size
    ∧ (createProcessedFile s f now).1.status = f.status
    ∧ (createProcessedFile s f now).1.classificationResult = f.classificationResult
    ∧ (createProcessedFile s f now).1.extractedData = f.extractedData
    ∧ (createProcessedFile s f now).1.businessIntent = f.businessIntent
    ∧ (createProcessedFile s f now).1.priority = f.priority
    ∧ (createProcessedFile s f now).1.agentAssigned = f.agentAssigned
    ∧ (createProcessedFile s f now).1.id = s.currentId
    ∧ (createProcessedFile s f now).1.uploadedAt = now
    ∧ (createProcessedFile s f now).1.processedAt = none
    ∧ getProcessedFile (createProcessedFile s f now).2
        (createProcessedFile s f now).1.id = some (createProcessedFile s f now).1
    ∧ List.Pairwise (· < ·) (assignedIds ops s) := by
  refine ⟨rfl, rfl, rfl, rfl, rfl, rfl, rfl, rfl, rfl, rfl, rfl, rfl, rfl, ?_,
    assignedIds_pairwise ops s⟩
  simp [getProcessedFile, createProcessedFile, mapGet_mapSet_self]

/-! ## Update atomicity -/

/-- Whether an `Except` result is the thrown-error case. -/
def isErr {α : Type} : Except String α → Bool
  | Except.error _ => true
  | Except.ok _ => false

/-- Claim C9: `updateProcessedFile` and `updateTriggeredAction` throw
exactly when no record with the given id exists; on a throw the whole
store is unchanged; on success the target record becomes the spread
update, every other record of every map is untouched, the counter is
untouched, and every field not supplied in the updates keeps its
existing value. -/
theorem update_throws_iff_missing (s : MemStorage) (id : Nat)
    (u : ProcessedFileUpdates) (v : TriggeredActionUpdates) :
    (isErr (updateProcessedFile s id u).1 = true ↔ mapGet s.processedFiles id = none)
    ∧ (mapGet s.processedFiles id = none → (updateProcessedFile s id u).2 = s)
    ∧ (∀ e, mapGet s.processedFiles id = some e →
        (updateProcessedFile s id u).1 = Except.ok (applyFileUpdates e u)
        ∧ mapGet (updateProcessedFile s id u).2.processedFiles id =
            some (applyFileUpdates e u)
        ∧ (∀ j, j ≠ id → mapGet (updateProcessedFile s id u).2.processedFiles j =
            mapGet s.processedFiles j)
        ∧ (updateProcessedFile s id u).2.users = s.users
        ∧ (updateProcessedFile s id u).2.agentActivities = s.agentActivities
        ∧ (updateProcessedFile s id u).2.triggeredActions = s.triggeredActions
        ∧ (updateProcessedFile s id u).2.systemMetrics = s.systemMetrics
        ∧ (updateProcessedFile s id u).2.currentId = s.currentId
        ∧ (u.id = none → (applyFileUpdates e u).id = e.id)
        ∧ (u.filename = none → (applyFileUpdates e u).filename = e.filename)
        ∧ (u.originalName = none → (applyFileUpdates e u).originalName = e.originalName)
        ∧ (u.fileType = none → (applyFileUpdates e u).fileType = e.fileType)
        ∧ (u.size = none → (applyFileUpdates e u).size = e.size)
        ∧ (u.uploadedAt = none → (applyFileUpdates e u).uploadedAt = e.uploadedAt)
        ∧ (u.processedAt = none → (applyFileUpdates e u).processedAt = e.processedAt)
        ∧ (u.status = none → (applyFileUpdates e u).status = e.status)
        ∧ (u.classificationResult = none →
            (applyFileUpdates e u).classificationResult = e.classificationResult)
        ∧ (u.extractedData = none → (applyFileUpdates e u).extractedData = e.extractedData)
        ∧ (u.businessIntent = none →
            (applyFileUpdates e u).businessIntent = e.businessIntent)
        ∧ (u.priority = none → (applyFileUpdates e u).priority = e.priority)
        ∧ (u.agentAssigned = none →
            (applyFileUpdates e u).agentAssigned = e.agentAssigned))
    ∧ (isErr (updateTriggeredAction s id v).1 = true ↔
        mapGet s.triggeredActions id = none)
    ∧ (mapGet s.triggeredActions id = none → (updateTriggeredAction s id v).2 = s)
    ∧ (∀ e, mapGet s.triggeredActions id = some e →
        (updateTriggeredAction s id v).1 = Except.ok (applyActionUpdates e v)
        ∧ mapGet (updateTriggeredAction s id v).2.triggeredActions id =
            some (applyActionUpdates e v)
        ∧ (∀ j, j ≠ id → mapGet (updateTriggeredAction s id v).2.triggeredActions j =
            mapGet s.triggeredActions j)
        ∧ (updateTriggeredAction s id v).2.users = s.users
        ∧ (updateTriggeredAction s id v).2.processedFiles = s.processedFiles
        ∧ (updateTriggeredAction s id v).2.agentActivities = s.agentActivities
        ∧ (updateTriggeredAction s id v).2.systemMetrics = s.systemMetrics
        ∧ (updateTriggeredAction s id v).2.currentId = s.currentId
        ∧ (v.id = none → (applyActionUpdates e v).id = e.id)
        ∧ (v.fileId = none → (applyActionUpdates e v).fileId = e.fileId)
        ∧ (v.actionType = none → (applyActionUpdates e v).actionType = e.actionType)
        ∧ (v.description = none → (applyActionUpdates e v).description = e.description)
        ∧ (v.priority = none → (applyActionUpdates e v).priority = e.priority)
        ∧ (v.status = none → (applyActionUpdates e v).status = e.status)
        ∧ (v.externalApiCall = none →
            (applyActionUpdates e v).externalApiCall = e.externalApiCall)
        ∧ (v.timestamp = none → (applyActionUpdates e v).timestamp = e.timestamp)
        ∧ (v.metadata = none → (applyActionUpdates e v).metadata = e.metadata)) := by
  refine ⟨?_, ?_, ?_, ?_, ?_, ?_⟩
  · rcases hm : mapGet s.processedFiles id with _ | e <;>
      simp [updateProcessedFile, hm, isErr]
  · intro hm; simp [updateProcessedFile, hm]
  · intro e hm
    refine ⟨by simp [updateProcessedFile, hm], by
        simp [updateProcessedFile, hm, mapGet_mapSet_self], ?_,
      by simp [updateProcessedFile, hm], by simp [updateProcessedFile, hm],
      by simp [updateProcessedFile, hm], by simp [updateProcessedFile, hm],
      by simp [updateProcessedFile, hm], ?_, ?_, ?_, ?_, ?_, ?_, ?_, ?_, ?_, ?_,
      ?_, ?_, ?_⟩
    · intro j hj
      simp [updateProcessedFile, hm, mapGet_mapSet_ne _ _ _ _ hj]
    all_goals intro hnone; simp [applyFileUpdates, hnone]
  · rcases hm : mapGet s.triggeredActions id with _ | e <;>
      simp [updateTriggeredAction, hm, isErr]
  · intro hm; simp [updateTriggeredAction, hm]
  · intro e hm
    refine ⟨by simp [updateTriggeredAction, hm], by
        simp [updateTriggeredAction, hm, mapGet_mapSet_self], ?_,
      by simp [updateTriggeredAction, hm], by simp [updateTriggeredAction, hm],
      by simp [updateTriggeredAction, hm], by simp [updateTriggeredAction, hm],
      by simp [updateTriggeredAction, hm], ?_, ?_, ?_, ?_, ?_, ?_, ?_, ?_, ?_⟩
    · intro j hj
      simp [updateTriggeredAction, hm, mapGet_mapSet_ne _ _ _ _ hj]
    all_goals intro hnone; simp [applyActionUpdates, hnone]

/-- Store with one processed file (id 1) and one triggered action
(id 2), for the update witnesses. -/
def sampleStore : MemStorage :=
  { users := [],
    processedFiles := [(1,
      { id := 1, filename := "f", originalName := "a.pdf", fileType := "PDF",
        size := 1, uploadedAt := 0, processedAt := none, status := "pending",
        classificationResult := none, extractedData := none, businessIntent := none,
        priority := some "low", agentAssigned := none })],
    agentActivities := [],
    triggeredActions := [(2,
      { id := 2, fileId := some 1, actionType := "log", description := "d",
        priority := "low", status := "pending", externalApiCall := none,
        timestamp := 0, metadata := none })],
    systemMetrics := [], currentId := 3 }

/-- Claim C9 witness: on the concrete store, updating a present file id
succeeds with the spread record, and updating an absent action id
throws and leaves the store unchanged. -/
theorem update_throws_iff_missing_witness :
    ((updateProcessedFile sampleStore 1 { status := some "processing" }).1 =
      Except.ok (applyFileUpdates
        { id := 1, filename := "f", originalName := "a.pdf", fileType := "PDF",
          size := 1, uploadedAt := 0, processedAt := none, status := "pending",
          classificationResult := none, extractedData := none, businessIntent := none,
          priority := some "low", agentAssigned := none }
        { status := some "processing" }))
    ∧ (updateTriggeredAction sampleStore 9 { status := some "completed" }).2 =
        sampleStore := by
  constructor
  · exact ((update_throws_iff_missing sampleStore 1
      { status := some "processing" } { }).2.2.1 _ (by decide)).1
  · exact (update_throws_iff_missing sampleStore 9
      { } { status := some "completed" }).2.2.2.2.1 (by decide)

/-- Claim C10: `getDashboardStats` is total over every store state —
with no files the success rate is 0 rather than a division by zero,
with no activities the average processing time is 0, and when the set
of distinct agent names in the activity log is empty the active-agent
count falls back to the default 4. -/
theorem dashboard_stats_total (s : MemStorage) (todayStart : Nat) :
    (s.processedFiles = [] → (getDashboardStats s todayStart).successRate = 0)
    ∧ (s.agentActivities = [] →
        (getDashboardStats s todayStart).averageProcessingTime = 0
        ∧ (getDashboardStats s todayStart).activeAgents = 4)
    ∧ ((((s.agentActivities.map Prod.snd).map (fun a => a.agentName)).eraseDups = []) →
        (getDashboardStats s todayStart).activeAgents = 4) := by
  refine ⟨?_, ?_, ?_⟩
  · intro h; simp [getDashboardStats, h]
  · intro h
    refine ⟨by simp [getDashboardStats, h], ?_⟩
    simp [getDashboardStats, h, show ([] : List String).eraseDups = [] from rfl]
  · intro h
    simp only [List.map_map] at h
    simp [getDashboardStats, h]

/-- Claim C10 witness: the fresh, empty store. -/
theorem dashboard_stats_total_witness :
    (getDashboardStats MemStorage.init 0).successRate = 0
    ∧ (getDashboardStats MemStorage.init 0).averageProcessingTime = 0
    ∧ (getDashboardStats MemStorage.init 0).activeAgents = 4 :=
  ⟨(dashboard_stats_total MemStorage.init 0).1 rfl,
   ((dashboard_stats_total MemStorage.init 0).2.1 rfl).1,
   ((dashboard_stats_total MemStorage.init 0).2.1 rfl).2⟩

/-- Claim C2 (amended) witness: a concrete upload is unchanged when the
content changes, and the uppercase `.PDF` extension maps to format
PDF. -/
theorem upload_format_by_extension_only_witness :
    uploadRoute MemStorage.init "x.PDF" "f" "AAA" 1 0 true 0 =
      uploadRoute MemStorage.init "x.PDF" "f" "BBB" 1 0 true 0
    ∧ (detectFileType "x.PDF" = some "PDF" ↔ lowerStr (extname "x.PDF") = ".pdf") :=
  ⟨(upload_format_by_extension_only MemStorage.init "x.PDF" "f" "AAA" "BBB"
      1 0 true 0).1,
   (upload_format_by_extension_only MemStorage.init "x.PDF" "f" "AAA" "BBB"
      1 0 true 0).2.1⟩

/-- Claim C8 witness: concrete round-trip on the fresh store and
strictly increasing ids across a concrete mixed create history. -/
theorem create_get_roundtrip_witness :
    getProcessedFile (createProcessedFile MemStorage.init sampleInsertFile 4).2
        (createProcessedFile MemStorage.init sampleInsertFile 4).1.id =
      some (createProcessedFile MemStorage.init sampleInsertFile 4).1
    ∧ List.Pairwise (· < ·) (assignedIds
        [Op.createUser { username := "u", password := "p" },
         Op.createProcessedFile sampleInsertFile 4,
         Op.createAgentActivity sampleInsertActivity 5] MemStorage.init) :=
  ⟨(create_get_roundtrip MemStorage.init sampleInsertFile 4 []).2.2.2.2.2.2.2.2.2.2.2.2.2.1,
   (create_get_roundtrip MemStorage.init sampleInsertFile 4
     [Op.createUser { username := "u", password := "p" },
      Op.createProcessedFile sampleInsertFile 4,
      Op.createAgentActivity sampleInsertActivity 5]).2.2.2.2.2.2.2.2.2.2.2.2.2.2⟩

end AgentSystem
